import Mathlib

/-!
Shallow embedding of the logging-configuration generator
(`Diagnostic/Utils/lad_logging_config.py`), the machine-identity helper
(`VMBackup/main/MachineIdentity.py`) and the XML merge helper, together with
theorems settling the specification claims about them.

Python strings are Lean `String`s, Python `None`/missing keys are `Option`,
Python exceptions (`LadLoggingConfigException`) are `Except String`, and the
instance's memoization attributes are an explicit `Caches` record threaded
through the getter functions.
-/

/-! ## Generic string helpers (faithful models of the Python string operations used) -/

/-- Python falsiness of a string (`not s`): true exactly when the string is empty. -/
def strFalsy (s : String) : Bool := s.data.isEmpty

/-- Helper for `splitOnChar`, walking the character list with an accumulator. -/
def splitOnCharAux (sep : Char) : List Char → List Char → List String
  | [], acc => [String.mk acc.reverse]
  | c :: cs, acc =>
    if c = sep then String.mk acc.reverse :: splitOnCharAux sep cs []
    else splitOnCharAux sep cs (c :: acc)

/-- Python `s.split(sep)` for a one-character separator: note `"".split(',') == ['']`. -/
def splitOnChar (sep : Char) (s : String) : List String := splitOnCharAux sep s.data []

/-- Python `'/'.join`-style joining with a separator. -/
def joinWith (sep : String) : List String → String
  | [] => ""
  | [x] => x
  | x :: xs => x ++ sep ++ joinWith sep xs

/-- Python `file_key.replace('/', '.')`: replace every slash character by a dot. -/
def replaceSlashDot (s : String) : String :=
  String.mk (s.data.map (fun c => if c = '/' then '.' else c))

/-! ## Data model of the LAD 3.0 settings objects -/

/-- The `"syslogEvents"` JSON object: optional `sinks` string and the
`syslogEventConfiguration` facility-to-severity mapping (a key that the
constructor accesses unconditionally, hence `Option` to model its absence). -/
structure SyslogEvents where
  sinks : Option String
  syslogEventConfiguration : Option (List (String × String))

/-- One entry of the `"fileLogConfiguration"` JSON array. -/
structure FileLogEntry where
  file : String
  table : Option String
  sinks : Option String

/-- One sink definition from the `sinksConfig` registry: a `name`, a `type`
string (Python's falsy/empty type is the empty string) and an optional
`sasURL`. -/
structure SinkDef where
  name : String
  type : String
  sasURL : Option String

/-- Modelled from the spec: the sink registry's `get_sink_by_name`
(`Utils/LadDiagnosticUtil.py`, not under src/) — "a sink-registry object
exposing `lookup_by_name(name) → sink-definition-or-absent`", a
"mapping(sink-name → sink definition); queried by name". -/
def get_sink_by_name (sinksConfig : List SinkDef) (sink_name : String) : Option SinkDef :=
  sinksConfig.find? (fun s => s.name == sink_name)

/-- Modelled from the spec: `get_syslog_ng_src_name` (`Utils/omsagent_util.py`,
not under src/) returns "a fixed source identifier" referenced by the generated
syslog-ng log rules. -/
def get_syslog_ng_src_name : String := "src"

/-- The constructed `LadLoggingConfig` instance state: the stored settings plus
the derived `_fac_sev_map` and `_syslog_disabled` fields set by `__init__`. -/
structure Config where
  syslogEvents : Option SyslogEvents
  fileLogs : Option (List FileLogEntry)
  sinksConfig : List SinkDef
  fac_sev_map : Option (List (String × String))
  syslog_disabled : Bool

/-- `LadLoggingConfig.__init__`: stores the three settings objects, sets
`_fac_sev_map` from `syslogEvents['syslogEventConfiguration']` when
`syslogEvents` is truthy (a missing key raises, caught as KeyError and
re-raised as a `LadLoggingConfigException`), and sets the
`_syslog_disabled` convenience predicate (`not self._fac_sev_map`). -/
def mkLadLoggingConfig (syslogEvents : Option SyslogEvents)
    (fileLogs : Option (List FileLogEntry)) (sinksConfig : List SinkDef) :
    Except String Config :=
  match syslogEvents with
  | none => .ok ⟨none, fileLogs, sinksConfig, none, true⟩
  | some se =>
    match se.syslogEventConfiguration with
    | none => .error
        "Invalid setting name provided (KeyError). Exception msg: \x27syslogEventConfiguration\x27"
    | some m => .ok ⟨some se, fileLogs, sinksConfig, some m, m.isEmpty⟩

/-- The `'sinks' in self._syslogEvents` lookup used by the mdsd syslog generator. -/
def sinksField (c : Config) : Option String :=
  match c.syslogEvents with
  | some se => se.sinks
  | none => none

/-! ## The facility/severity name mapper -/

/-- `syslog_name_to_rsyslog_name_map`: the fixed table, transcribed entry by
entry from the source (20 facilities followed by 8 severities). -/
def syslog_name_to_rsyslog_name_map : List (String × String) :=
  [("LOG_AUTH", "auth"),
   ("LOG_AUTHPRIV", "authpriv"),
   ("LOG_CRON", "cron"),
   ("LOG_DAEMON", "daemon"),
   ("LOG_FTP", "ftp"),
   ("LOG_KERN", "kern"),
   ("LOG_LOCAL0", "local0"),
   ("LOG_LOCAL1", "local1"),
   ("LOG_LOCAL2", "local2"),
   ("LOG_LOCAL3", "local3"),
   ("LOG_LOCAL4", "local4"),
   ("LOG_LOCAL5", "local5"),
   ("LOG_LOCAL6", "local6"),
   ("LOG_LOCAL7", "local7"),
   ("LOG_LPR", "lpr"),
   ("LOG_MAIL", "mail"),
   ("LOG_NEWS", "news"),
   ("LOG_SYSLOG", "syslog"),
   ("LOG_USER", "user"),
   ("LOG_UUCP", "uucp"),
   ("LOG_EMERG", "emerg"),
   ("LOG_ALERT", "alert"),
   ("LOG_CRIT", "crit"),
   ("LOG_ERR", "err"),
   ("LOG_WARNING", "warning"),
   ("LOG_NOTICE", "notice"),
   ("LOG_INFO", "info"),
   ("LOG_DEBUG", "debug")]

/-- `syslog_name_to_rsyslog_name`: exact (case-sensitive) lookup in the fixed
table, raising `LadLoggingConfigException` for any name outside it. -/
def syslog_name_to_rsyslog_name (syslog_name : String) : Except String String :=
  match syslog_name_to_rsyslog_name_map.find? (fun p => p.1 == syslog_name) with
  | some p => .ok p.2
  | none => .error ("Invalid syslog name given: " ++ syslog_name)

/-! ## Mdsd XML config templates (module-level Python template strings) -/

/-- `_mdsd_sources_events_config_template` with its three format slots filled. -/
def mdsd_sources_events_config (sources events eh_urls : String) : String :=
  "\n<MonitoringManagement eventVersion=\"2\" namespace=\"\" timestamp=\"2014-12-01T20:00:00.000\" version=\"1.0\">\n  <Sources>\n"
  ++ sources ++
  "  </Sources>\n\n  <Events>\n    <MdsdEvents>\n"
  ++ events ++
  "    </MdsdEvents>\n  </Events>\n\n  <EventStreamingAnnotations>\n"
  ++ eh_urls ++
  "  </EventStreamingAnnotations>\n</MonitoringManagement>\n"

/-- `_mdsd_per_source_config_template` with its `name` slot filled. -/
def mdsd_per_source_config (name : String) : String :=
  "    <Source name=\"" ++ name ++ "\" dynamic_schema=\"true\" />\n"

/-- `_mdsd_per_event_source_config_template` with its two slots filled. -/
def mdsd_per_event_source_config (source routeevents : String) : String :=
  "      <MdsdEventSource source=\"" ++ source ++ "\">\n        "
  ++ routeevents ++
  "\n      </MdsdEventSource>\n"

/-- `_mdsd_per_routeevent_config_template` with its two slots filled. -/
def mdsd_per_routeevent_config (event_name opt_store_type : String) : String :=
  "    <RouteEvent dontUsePerNDayTable=\"true\" eventName=\"" ++ event_name
  ++ "\" priority=\"High\" " ++ opt_store_type ++ " />\n"

/-- `_mdsd_per_eh_url_template` with its two slots filled. -/
def mdsd_per_eh_url (eh_name eh_url : String) : String :=
  "    <EventStreamingAnnotation name=\"" ++ eh_name
  ++ "\">\n       <EventPublisher>\n         <Content/>\n         <Key><![CDATA["
  ++ eh_url ++
  "]]></Key>\n       </EventPublisher>\n    </EventStreamingAnnotation>\n"

/-- The message of the reserved-name `LadLoggingConfigException`. -/
def reservedSinkNameMsg : String :=
  "\x27LinuxSyslog\x27 can\x27t be used as a sink name. It\x27s reserved for default Azure Table name for syslog events."

/-! ## The rsyslog / syslog-ng fragment generators -/

/-- One line of the rsyslog fragment for a `(facility, severity)` pair
(either name lookup may raise). -/
def omsRsyslogLine (fac sev : String) : Except String String := do
  let f ← syslog_name_to_rsyslog_name fac
  let s ← syslog_name_to_rsyslog_name sev
  pure (f ++ "." ++ s ++ "  @127.0.0.1:%SYSLOG_PORT%")

/-- The rsyslog config body generated for the facility-severity map
(`'\n'.join(...) + '\n'`). -/
def generateOmsRsyslogBody (m : List (String × String)) : Except String String := do
  let lines ← m.mapM (fun fs => omsRsyslogLine fs.1 fs.2)
  pure (joinWith "\n" lines ++ "\n")

/-- One rule of the syslog-ng fragment for a `(facility, severity)` pair. -/
def omsSyslogNgLine (fac sev : String) : Except String String := do
  let f ← syslog_name_to_rsyslog_name fac
  let s ← syslog_name_to_rsyslog_name sev
  pure ("log \x7b source(" ++ get_syslog_ng_src_name ++ "); filter(f_LAD_oms_f_" ++ f
        ++ "); filter(f_LAD_oms_ml_" ++ s ++ "); destination(d_LAD_oms); \x7d;")

/-- The syslog-ng config body generated for the facility-severity map. -/
def generateOmsSyslogNgBody (m : List (String × String)) : Except String String := do
  let lines ← m.mapM (fun fs => omsSyslogNgLine fs.1 fs.2)
  pure (joinWith "\n" lines ++ "\n")

/-! ## The shared sink-route sub-algorithm -/

/-- `LadLoggingConfig.__generate_routeevent_and_eh_url_for_extra_sink`:
look the sink up in the registry; absence, missing (falsy) type, a missing
`sasURL` on an `EventHub` sink, and an unsupported type each raise; `JsonBlob`
and well-formed `EventHub` sinks yield their RouteEvent (and annotation) XML. -/
def generate_routeevent_and_eh_url_for_extra_sink (sinksConfig : List SinkDef)
    (sink_name : String) : Except String (String × String) :=
  match get_sink_by_name sinksConfig sink_name with
  | none => .error ("Sink name \"" ++ sink_name ++ "\" is not defined in sinksConfig")
  | some sink =>
    if strFalsy sink.type then
      .error ("Sink type for sink \"" ++ sink_name ++ "\" is not defined in sinksConfig")
    else if sink.type == "JsonBlob" then
      .ok (mdsd_per_routeevent_config sink_name "storeType=\"JsonBlob\"", "")
    else if sink.type == "EventHub" then
      match sink.sasURL with
      | none => .error ("sasURL is not specified for EventHub sink_name=" ++ sink_name)
      | some url =>
        .ok (mdsd_per_routeevent_config sink_name "storeType=\"local\"",
             mdsd_per_eh_url sink_name url)
    else
      .error (sink.type ++ " sink type (for sink_name=" ++ sink_name ++ ") is not supported")

/-! ## The mdsd syslog XML generator -/

/-- The `for sink_name in self._syslogEvents['sinks'].split(',')` loop of
`__generate_oms_mdsd_syslog_config`, accumulating RouteEvent and
EventStreamingAnnotation XML; a sink literally named `LinuxSyslog` raises. -/
def syslogSinksLoop (sinksConfig : List SinkDef) :
    List String → String → String → Except String (String × String)
  | [], re, ehs => .ok (re, ehs)
  | n :: rest, re, ehs =>
    if n == "LinuxSyslog" then .error reservedSinkNameMsg
    else
      match generate_routeevent_and_eh_url_for_extra_sink sinksConfig n with
      | .error e => .error e
      | .ok (r, u) => syslogSinksLoop sinksConfig rest (re ++ r) (ehs ++ u)

/-- `LadLoggingConfig.__generate_oms_mdsd_syslog_config`: returns the empty
string when syslog is disabled; otherwise builds the default `LinuxSyslog`
route plus one route per extra sink and renders the full document. -/
def generate_oms_mdsd_syslog_config (c : Config) : Except String String :=
  if c.syslog_disabled then .ok ""
  else
    let re0 := mdsd_per_routeevent_config "LinuxSyslog" ""
    match sinksField c with
    | none =>
      .ok (mdsd_sources_events_config (mdsd_per_source_config "mdsd.syslog")
            (mdsd_per_event_source_config "mdsd.syslog" re0) "")
    | some s => do
      let (re, ehs) ← syslogSinksLoop c.sinksConfig (splitOnChar ',' s) re0 ""
      pure (mdsd_sources_events_config (mdsd_per_source_config "mdsd.syslog")
            (mdsd_per_event_source_config "mdsd.syslog" re) ehs)

/-! ## The mdsd filelog XML generator -/

/-- The value stored in the Python `'file'`-keyed dicts (`_file_table_map` /
`_file_sinks_map`) for key `k`: `dict(...)` keeps the value of the LAST entry
with that key, and a missing `'table'`/`'sinks'` key becomes `''`. -/
def fileValue (f : FileLogEntry → String) (l : List FileLogEntry) (k : String) : String :=
  match (l.filter (fun e => e.file == k)).getLast? with
  | some e => f e
  | none => ""

/-- `self._file_table_map[k]`. -/
def fileTableValue (l : List FileLogEntry) (k : String) : String :=
  fileValue (fun e => e.table.getD "") l k

/-- `self._file_sinks_map[k]`. -/
def fileSinksValue (l : List FileLogEntry) (k : String) : String :=
  fileValue (fun e => e.sinks.getD "") l k

/-- The distinct file paths (the dict's key set; `List.dedup` keeps, for each
duplicated path, the position of its last occurrence). -/
def fileKeys (l : List FileLogEntry) : List String := (l.map (fun e => e.file)).dedup

/-- `sorted(self._file_table_map)`: the distinct file paths in ascending order. -/
def sortedFileKeys (l : List FileLogEntry) : List String :=
  (fileKeys l).insertionSort (· ≤ ·)

/-- The per-file source-name derivation of `__generate_oms_mdsd_filelog_config`:
`'mdsd.filelog{0}'.format(file_key.replace('/', '.'))`. -/
def filelogSourceName (file_key : String) : String :=
  "mdsd.filelog" ++ replaceSlashDot file_key

/-- The inner `for sink_name in self._file_sinks_map[file_key].split(',')` loop
of `__generate_oms_mdsd_filelog_config`. -/
def filelogSinkLoop (sinksConfig : List SinkDef) :
    List String → String → String → Except String (String × String)
  | [], re, ehs => .ok (re, ehs)
  | n :: rest, re, ehs =>
    match generate_routeevent_and_eh_url_for_extra_sink sinksConfig n with
    | .error e => .error e
    | .ok (r, u) => filelogSinkLoop sinksConfig rest (re ++ r) (ehs ++ u)

/-- The `for file_key in sorted(self._file_table_map)` loop of
`__generate_oms_mdsd_filelog_config`, accumulating Source, MdsdEventSource and
EventStreamingAnnotation XML; a file with neither table nor sinks raises. -/
def filelogKeysLoop (sinksConfig : List SinkDef) (tbl snk : String → String) :
    List String → String → String → String → Except String (String × String × String)
  | [], srcs, evts, ehs => .ok (srcs, evts, ehs)
  | k :: rest, srcs, evts, ehs =>
    if strFalsy (tbl k) && strFalsy (snk k) then
      .error ("Neither \"table\" nor \"sinks\" defined for file \"" ++ k ++ "\"")
    else
      let source_name := filelogSourceName k
      let pfr := if strFalsy (tbl k) then "" else mdsd_per_routeevent_config (tbl k) ""
      match (if strFalsy (snk k) then .ok (pfr, ehs)
             else filelogSinkLoop sinksConfig (splitOnChar ',' (snk k)) pfr ehs) with
      | .error e => .error e
      | .ok (pfr', ehs') =>
        filelogKeysLoop sinksConfig tbl snk rest
          (srcs ++ mdsd_per_source_config source_name)
          (evts ++ mdsd_per_event_source_config source_name pfr') ehs'

/-- `LadLoggingConfig.__generate_oms_mdsd_filelog_config`: empty string when
`fileLogs` is falsy; otherwise one Source/MdsdEventSource block per distinct
file path in sorted order, rendered into the shared top-level template. -/
def generate_oms_mdsd_filelog_config (c : Config) : Except String String :=
  match c.fileLogs with
  | none => .ok ""
  | some l =>
    if l.isEmpty then .ok ""
    else do
      let (srcs, evts, ehs) ←
        filelogKeysLoop c.sinksConfig (fileTableValue l) (fileSinksValue l)
          (sortedFileKeys l) "" "" ""
      pure (mdsd_sources_events_config srcs evts ehs)

/-! ## Memoization caches and the public getters -/

/-- The four memoization attributes of a `LadLoggingConfig` instance
(`None` initially). -/
structure Caches where
  oms_rsyslog_config : Option String
  oms_syslog_ng_config : Option String
  oms_mdsd_syslog_config : Option String
  oms_mdsd_filelog_config : Option String

/-- A freshly constructed instance's caches (all attributes `None`). -/
def initCaches : Caches := ⟨none, none, none, none⟩

/-- Python falsiness of a cache attribute (`if not self._oms_..._config`):
`None` and the empty string are both falsy. -/
def cacheFalsy : Option String → Bool
  | none => true
  | some s => s.data.isEmpty

/-- `LadLoggingConfig.get_oms_rsyslog_config`: recompute when the cache is
falsy (empty string when disabled, generated body otherwise), cache and return;
an exception leaves the caches untouched. -/
def get_oms_rsyslog_config (c : Config) (st : Caches) : Except String String × Caches :=
  if cacheFalsy st.oms_rsyslog_config then
    if c.syslog_disabled then
      (.ok "", { st with oms_rsyslog_config := some "" })
    else
      match generateOmsRsyslogBody (c.fac_sev_map.getD []) with
      | .ok s => (.ok s, { st with oms_rsyslog_config := some s })
      | .error e => (.error e, st)
  else
    (.ok (st.oms_rsyslog_config.getD ""), st)

/-- `LadLoggingConfig.get_oms_syslog_ng_config`: same caching scheme as the
rsyslog getter, over the syslog-ng body. -/
def get_oms_syslog_ng_config (c : Config) (st : Caches) : Except String String × Caches :=
  if cacheFalsy st.oms_syslog_ng_config then
    if c.syslog_disabled then
      (.ok "", { st with oms_syslog_ng_config := some "" })
    else
      match generateOmsSyslogNgBody (c.fac_sev_map.getD []) with
      | .ok s => (.ok s, { st with oms_syslog_ng_config := some s })
      | .error e => (.error e, st)
  else
    (.ok (st.oms_syslog_ng_config.getD ""), st)

/-- `LadLoggingConfig.get_oms_mdsd_syslog_config`: generate on a falsy cache,
store the result, return it; an exception propagates with the caches untouched. -/
def get_oms_mdsd_syslog_config (c : Config) (st : Caches) : Except String String × Caches :=
  if cacheFalsy st.oms_mdsd_syslog_config then
    match generate_oms_mdsd_syslog_config c with
    | .ok s => (.ok s, { st with oms_mdsd_syslog_config := some s })
    | .error e => (.error e, st)
  else
    (.ok (st.oms_mdsd_syslog_config.getD ""), st)

/-- `LadLoggingConfig.get_oms_mdsd_filelog_config`: same caching scheme as the
mdsd syslog getter, over the filelog generator. -/
def get_oms_mdsd_filelog_config (c : Config) (st : Caches) : Except String String × Caches :=
  if cacheFalsy st.oms_mdsd_filelog_config then
    match generate_oms_mdsd_filelog_config c with
    | .ok s => (.ok s, { st with oms_mdsd_filelog_config := some s })
    | .error e => (.error e, st)
  else
    (.ok (st.oms_mdsd_filelog_config.getD ""), st)

/-! ## The fluentd source/output config generators -/

/-- The fixed fluentd syslog source template string of
`get_oms_fluentd_syslog_src_config` (brace characters written `\x7b`/`\x7d`). -/
def fluentdSyslogSrcTemplate : String :=
  "\n<source>\n  type syslog\n  port %SYSLOG_PORT%\n  bind 127.0.0.1\n  protocol_type udp\n  tag mdsd.syslog\n</source>\n\n# Generate fields expected for existing mdsd syslog collection schema.\n<filter mdsd.syslog.**>\n  type record_transformer\n  enable_ruby\n  <record>\n    # Fields expected by mdsd for syslog messages\n    Ignore \"syslog\"\n    Facility $\x7btag_parts[2]\x7d\n    Severity $\x7btag_parts[3]\x7d\n    EventTime $\x7btime.strftime(\x27%Y-%m-%dT%H:%M:%S%z\x27)\x7d\n    SendingHost $\x7brecord[\"source_host\"]\x7d\n    Msg $\x7brecord[\"message\"]\x7d\n  </record>\n  remove_keys host,ident,pid,message,source_host  # No need of these fields for mdsd so remove\n</filter>\n"

/-- `LadLoggingConfig.get_oms_fluentd_syslog_src_config`: the fixed template,
or the empty string when syslog is disabled. -/
def get_oms_fluentd_syslog_src_config (c : Config) : String :=
  if c.syslog_disabled then "" else fluentdSyslogSrcTemplate

/-- The fluentd tail source template of `get_oms_fluentd_filelog_src_config`
with its `file_paths` slot filled (literal braces written `\x7b`/`\x7d`). -/
def fluentdTailSrcConfig (file_paths : String) : String :=
  "\n# For all monitored files\n<source>\n  @type tail\n  path " ++ file_paths
  ++ "\n  pos_file /var/opt/microsoft/omsagent/LAD/tmp/filelogs.pos\n  tag mdsd.filelog.*\n  format none\n  message_key Msg  # LAD uses \"Msg\" as the field name\n</source>\n\n# Add FileTag field (existing LAD behavior)\n<filter mdsd.filelog.**>\n  @type record_transformer\n  <record>\n    FileTag $\x7btag_suffix[2]\x7d\n  </record>\n</filter>\n"

/-- `LadLoggingConfig.get_oms_fluentd_filelog_src_config`: empty when
`fileLogs` is falsy, otherwise the tail template over the comma-joined
watched file paths (`','.join(self._file_table_map.keys())`). -/
def get_oms_fluentd_filelog_src_config (c : Config) : String :=
  match c.fileLogs with
  | none => ""
  | some l => if l.isEmpty then "" else fluentdTailSrcConfig (joinWith "," (fileKeys l))

/-! ## XML merge helper (`copy_sub_elems`) -/

/-- An XML element: a tag and a list of child elements (attributes and text
play no role in `copy_sub_elems` and are omitted). -/
inductive Elem where
  | mk : String → List Elem → Elem

/-- The element's tag. -/
def Elem.tag : Elem → String
  | .mk t _ => t

/-- The element's child elements, in document order. -/
def Elem.children : Elem → List Elem
  | .mk _ c => c

/-- One `ElementPath` step per candidate set: all matching children of all
candidates, in document order (the semantics of `ElementTree.find` paths). -/
def selectPath : List Elem → List String → List Elem
  | es, [] => es
  | es, t :: ts =>
    selectPath (es.flatMap (fun e => e.children.filter (fun ch => ch.tag == t))) ts

/-- `tree.find(path)`: the first element matching the '/'-separated path. -/
def treeFind (root : Elem) (path : String) : Option Elem :=
  (selectPath [root] (splitOnChar '/' path)).head?

/-- Apply `f` to the first element of the list on which it succeeds, keeping
the rest unchanged; reports whether any element succeeded. -/
def firstSuccess (f : Elem → Elem × Bool) : List Elem → List Elem × Bool
  | [] => ([], false)
  | e :: es =>
    match f e with
    | (e', true) => (e' :: es, true)
    | _ =>
      match firstSuccess f es with
      | (es', b) => (e :: es', b)

/-- Append `newChildren` to the first element reachable along `path` (the same
element `find` would return); the Bool reports whether such an element exists. -/
def appendAtPath : List String → List Elem → Elem → Elem × Bool
  | [], newChildren, e => (.mk e.tag (e.children ++ newChildren), true)
  | t :: ts, newChildren, e =>
    match firstSuccess
        (fun ch => if ch.tag == t then appendAtPath ts newChildren ch else (ch, false))
        e.children with
    | (cs, b) => (.mk e.tag cs, b)

/-- `copy_sub_elems(dst_xml, src_xml, path)`: if the path is absent from the
source tree, no-op; otherwise append every child of the source element to the
destination element at that path. When the destination element is absent and
the source element has children, Python's `dst_elem.append` raises
(`AttributeError` on `None`), modelled as `none`. -/
def copy_sub_elems (dst_xml src_xml : Elem) (path : String) : Option Elem :=
  match treeFind src_xml path with
  | none => some dst_xml
  | some src_elem =>
    match appendAtPath (splitOnChar '/' path) src_elem.children dst_xml with
    | (d, true) => some d
    | (_, false) => if src_elem.children.isEmpty then some dst_xml else none

/-! ## Machine-identity helper (`VMBackup/main/MachineIdentity.py`) -/

/-- The file-system state seen by `MachineIdentity`: the contents of
`/var/lib/waagent/HostingEnvironmentConfig.xml` and of the local store file
`./machine_identity_FD76C85E-406F-4CFA-8EB0-CF18B123365C` (`none` = absent). -/
structure FS where
  hostingEnvConfig : Option String
  storeIdentityFile : Option String

/-- `MachineIdentity.current_identity`: `None` when the system identity file
does not exist; otherwise the `guid` attribute of the first `Role` element.
The `xml.dom.minidom` parsing of that attribute is a Python standard-library
call, abstracted here as the parameter `roleGuidOf`. -/
def current_identity (roleGuidOf : String → Option String) (fs : FS) : Option String :=
  match fs.hostingEnvConfig with
  | some xmlText => roleGuidOf xmlText
  | none => none

/-- `MachineIdentity.save_identity`: opens the store file for writing into
`self.file` (which creates or truncates the file to empty), then calls
`self.current_identity()` — which REASSIGNS `self.file`: to `None` when the
system identity file is absent, or to the system file's read handle, which
`current_identity`'s `finally` block has already closed, when it is present.
So when an identity is found, the subsequent `self.file.write(machine_identity)`
operates on that closed read handle and raises (`ValueError`), and the identity
is never written: on every path the store file is left present and empty. The
result pairs the normal/exceptional termination (`Except`) with the post-state
of the file system. -/
def save_identity (roleGuidOf : String → Option String) (fs : FS) :
    Except String Unit × FS :=
  let fs1 : FS := { fs with storeIdentityFile := some "" }
  match current_identity roleGuidOf fs1 with
  | some _ => (.error "I/O operation on closed file", fs1)
  | none => (.ok (), fs1)

/-- `MachineIdentity.stored_identity`: the store file's contents, or `None`
when the file does not exist. -/
def stored_identity (fs : FS) : Option String := fs.storeIdentityFile

/-! ## Auxiliary definitions for the theorems -/

/-- The `syslogEventConfiguration` mapping of a syslog-event policy
(absent when the policy or the key is absent). -/
def facSevMapOf : Option SyslogEvents → Option (List (String × String))
  | some se => se.syslogEventConfiguration
  | none => none

/-- Keep, for each file path, only the LAST file-log entry with that path
(the Python `dict(...)` last-wins semantics made explicit: an entry is dropped
exactly when a later entry has the same `file`). -/
def keepLast : List FileLogEntry → List FileLogEntry
  | [] => []
  | e :: rest =>
    if e.file ∈ rest.map (fun x => x.file) then keepLast rest
    else e :: keepLast rest

/-- A `LadLoggingConfig` instance state holding only a file-log policy
(no syslog events), with registry `reg`. -/
def cfgFL (reg : List SinkDef) (l : List FileLogEntry) : Config :=
  ⟨none, some l, reg, none, true⟩

/-! ## Concrete instances used by counterexamples and witnesses -/

/-- A policy whose `syslogEventConfiguration` mapping is present but empty:
the constructor marks syslog collection disabled. -/
def cfgC1 : Config := ⟨some ⟨none, some []⟩, none, [], some [], true⟩

/-- A file-log policy naming the sink `LinuxSyslog`, with that sink defined as
a `JsonBlob` sink in the registry. -/
def cfgC2cx : Config :=
  ⟨none, some [⟨"/var/log/a", some "MyTable", some "LinuxSyslog"⟩],
   [⟨"LinuxSyslog", "JsonBlob", none⟩], none, true⟩

/-- A syslog-event policy naming the sink `LinuxSyslog` in its `sinks` list,
with syslog collection enabled. -/
def cfgC2w : Config :=
  ⟨some ⟨some "LinuxSyslog", some [("LOG_USER", "LOG_ERR")]⟩, none, [],
   some [("LOG_USER", "LOG_ERR")], false⟩

/-- A syslog-event policy referencing sink `EH1`, whose registry definition has
type `EventHub` but no `sasURL`. -/
def cfgC6w : Config :=
  ⟨some ⟨some "EH1", some [("LOG_USER", "LOG_ERR")]⟩, none,
   [⟨"EH1", "EventHub", none⟩], some [("LOG_USER", "LOG_ERR")], false⟩

/-- The claim C8 policy `{syslogEventConfiguration: {"LOG_USER":"LOG_ERR"}, sinks:""}`
as constructed by `__init__`. -/
def cfgC8 : Config :=
  ⟨some ⟨some "", some [("LOG_USER", "LOG_ERR")]⟩, none, [],
   some [("LOG_USER", "LOG_ERR")], false⟩

/-- A file-log policy with two entries for the same path `/a` (witness data for
the duplicate-path claim). -/
def flC10 : List FileLogEntry := [⟨"/a", some "T1", none⟩, ⟨"/a", some "T2", none⟩]

/-- A file-system state in which the system identity file does not exist. -/
def fsMissing : FS := ⟨none, none⟩

/-- A concrete stand-in for the XML `Role`-guid extraction (its value is
irrelevant when the system identity file is absent). -/
def parseNoGuid : String → Option String := fun _ => none

/-! ## Claim C1 -/

/-- C1 counterexample: for the policy whose `syslogEventConfiguration` mapping
is present but empty (`cfgC1`, produced by the constructor), the event-pipeline
syslog generator returns the empty string — it short-circuits on disabled
syslog collection instead of producing a near-empty document with an empty
syslog route section. -/
theorem c1_counterexample_short_circuits_when_disabled :
    mkLadLoggingConfig (some ⟨none, some []⟩) none [] = .ok cfgC1
    ∧ (get_oms_mdsd_syslog_config cfgC1 initCaches).1 = .ok ""
    ∧ "" ≠ mdsd_sources_events_config (mdsd_per_source_config "mdsd.syslog")
        (mdsd_per_event_source_config "mdsd.syslog"
          (mdsd_per_routeevent_config "LinuxSyslog" "")) "" :=
  ⟨rfl, rfl, by decide⟩

/-- C1 (amended): for every policy with syslog collection disabled (absent or
empty `syslogEventConfiguration` mapping), `get_oms_mdsd_syslog_config`
short-circuits and returns the empty string (caching it), rather than
generating a near-empty document. -/
theorem c1_disabled_returns_empty_string (c : Config) (st : Caches)
    (hdis : c.syslog_disabled = true) (hcache : st.oms_mdsd_syslog_config = none) :
    get_oms_mdsd_syslog_config c st =
      (.ok "", { st with oms_mdsd_syslog_config := some "" }) := by
  unfold get_oms_mdsd_syslog_config generate_oms_mdsd_syslog_config
  rw [hcache]
  simp [cacheFalsy, hdis]

/-- C1 witness: the amended claim evaluated on the concrete disabled policy. -/
theorem c1_witness :
    get_oms_mdsd_syslog_config cfgC1 initCaches =
      (.ok "", { initCaches with oms_mdsd_syslog_config := some "" }) :=
  c1_disabled_returns_empty_string cfgC1 initCaches rfl rfl

/-! ## Claim C3 -/

/-- C3 counterexample: the derived per-file source name is NOT injective on
file paths: the distinct paths `/a.b` and `/a/b` derive the same source name. -/
theorem c3_counterexample_source_name_collision :
    filelogSourceName "/a.b" = filelogSourceName "/a/b"
    ∧ ("/a.b" : String) ≠ "/a/b" :=
  ⟨rfl, by decide⟩

/-- C3 (amended): the per-file source-name derivation (prefix `mdsd.filelog`
plus the path with every `/` replaced by `.`) is injective on file paths that
contain no `.` character. -/
theorem c3_source_name_injective_on_dot_free_paths (p q : String)
    (hp : '.' ∉ p.data) (hq : '.' ∉ q.data)
    (h : filelogSourceName p = filelogSourceName q) : p = q := by
  unfold filelogSourceName at h
  have hdata : ("mdsd.filelog".data ++ (replaceSlashDot p).data)
      = ("mdsd.filelog".data ++ (replaceSlashDot q).data) := by
    have := congrArg String.data h
    simpa [String.data_append] using this
  have hrep : (replaceSlashDot p).data = (replaceSlashDot q).data :=
    List.append_cancel_left hdata
  unfold replaceSlashDot at hrep
  simp only [String.data] at hrep
  have hback : ∀ (r : String), '.' ∉ r.data →
      (r.data.map (fun c => if c = '/' then '.' else c)).map
        (fun c => if c = '.' then '/' else c) = r.data := by
    intro r hr
    rw [List.map_map]
    have : ∀ c ∈ r.data, ((fun c => if c = '.' then '/' else c) ∘
        (fun c => if c = '/' then '.' else c)) c = id c := by
      intro c hc
      by_cases hcs : c = '/'
      · simp [hcs, Function.comp]
      · have hcd : c ≠ '.' := fun hh => hr (hh ▸ hc)
        simp [Function.comp, hcs, hcd]
    rw [List.map_congr_left this, List.map_id]
  have hpq : p.data = q.data := by
    rw [← hback p hp, ← hback q hq, hrep]
  calc p = String.mk p.data := rfl
    _ = String.mk q.data := congrArg String.mk hpq
    _ = q := rfl

/-- C3 witness: the amended injectivity applied at concrete dot-free paths. -/
theorem c3_witness : ("/a" : String) = "/a" :=
  c3_source_name_injective_on_dot_free_paths "/a" "/a" (by decide) (by decide) rfl

/-! ## Claim C4 -/

/-- C4 counterexample: when the system identity file does not exist,
`current_identity` does return `None`, but `save_identity` opens the store
file for writing and so leaves it PRESENT and empty — `stored_identity`
afterwards returns the empty string, not the absent value. -/
theorem c4_counterexample_store_file_created_empty :
    current_identity parseNoGuid fsMissing = none
    ∧ (save_identity parseNoGuid fsMissing).2.storeIdentityFile = some ""
    ∧ stored_identity (save_identity parseNoGuid fsMissing).2 = some ""
    ∧ (some "" : Option String) ≠ none :=
  ⟨rfl, rfl, rfl, by decide⟩

/-- C4 (amended): for every file-system state in which the system identity file
does not exist, `current_identity` returns the absent value, and
`save_identity` returns normally without attempting a write of identity
content, but creates/truncates the local store file to empty, so
`stored_identity` afterwards returns the (present) empty string. -/
theorem c4_missing_system_identity_file (roleGuidOf : String → Option String)
    (fs : FS) (h : fs.hostingEnvConfig = none) :
    current_identity roleGuidOf fs = none
    ∧ (save_identity roleGuidOf fs).1 = .ok ()
    ∧ (save_identity roleGuidOf fs).2.storeIdentityFile = some ""
    ∧ stored_identity (save_identity roleGuidOf fs).2 = some ""
    ∧ (save_identity roleGuidOf fs).2.hostingEnvConfig = none := by
  obtain ⟨hec, sif⟩ := fs
  cases h
  exact ⟨rfl, rfl, rfl, rfl, rfl⟩

/-- C4 witness: the amended claim evaluated on the concrete absent-file state. -/
theorem c4_witness :
    current_identity parseNoGuid fsMissing = none
    ∧ (save_identity parseNoGuid fsMissing).1 = .ok ()
    ∧ (save_identity parseNoGuid fsMissing).2.storeIdentityFile = some ""
    ∧ stored_identity (save_identity parseNoGuid fsMissing).2 = some ""
    ∧ (save_identity parseNoGuid fsMissing).2.hostingEnvConfig = none :=
  c4_missing_system_identity_file parseNoGuid fsMissing rfl

/-! ## Claim C8 -/

/-- C8: for the policy `{syslogEventConfiguration: {"LOG_USER":"LOG_ERR"},
sinks:""}` (as constructed by `__init__`), the rsyslog fragment generator
returns exactly `"user.err  @127.0.0.1:%SYSLOG_PORT%\n"` (two spaces before
`@`, trailing newline included). -/
theorem c8_rsyslog_exact_output :
    mkLadLoggingConfig (some ⟨some "", some [("LOG_USER", "LOG_ERR")]⟩) none []
      = .ok cfgC8
    ∧ (get_oms_rsyslog_config cfgC8 initCaches).1
      = .ok "user.err  @127.0.0.1:%SYSLOG_PORT%\n" :=
  ⟨rfl, rfl⟩

/-! ## Claim C9 -/

/-- C9: for every destination tree, source tree and element path such that the
path is absent from the source tree, `copy_sub_elems` is a no-op: the
destination tree (in particular every element's children and their count) is
returned unchanged. -/
theorem c9_copy_sub_elems_noop_when_src_absent (dst src : Elem) (path : String)
    (h : treeFind src path = none) :
    copy_sub_elems dst src path = some dst := by
  unfold copy_sub_elems
  rw [h]

/-- C9 witness: the no-op on concrete trees whose source lacks the path. -/
theorem c9_witness :
    treeFind (Elem.mk "root" []) "Sources" = none
    ∧ copy_sub_elems (Elem.mk "root" [Elem.mk "Sources" [Elem.mk "Source" []]])
        (Elem.mk "root" []) "Sources"
      = some (Elem.mk "root" [Elem.mk "Sources" [Elem.mk "Source" []]]) :=
  ⟨rfl, c9_copy_sub_elems_noop_when_src_absent _ _ _ rfl⟩

/-! ## Claim C5 -/

/-- C5 counterexample: the fixed table has 28 distinct entries (20 facility
names and 8 severity names), not 14 facility names and ~21 entries; in
particular it has more than 22 entries, and `LOG_LPR` and `LOG_SYSLOG` are
facility entries beyond any 14-name facility set that includes the 8 local
facilities, kern, user, mail, daemon, auth and cron. -/
theorem c5_counterexample_table_has_28_entries :
    syslog_name_to_rsyslog_name_map.length = 28
    ∧ (syslog_name_to_rsyslog_name_map.map Prod.fst).Nodup
    ∧ ¬ syslog_name_to_rsyslog_name_map.length ≤ 22
    ∧ syslog_name_to_rsyslog_name "LOG_LPR" = .ok "lpr" :=
  ⟨rfl, by decide, by decide, rfl⟩

/-- C5 (amended): `syslog_name_to_rsyslog_name` is a case-sensitive exact-match
lookup over a fixed table of exactly 28 distinct entries (20 facility names and
8 severity names), and it raises the unknown-name error for every input outside
that table (e.g. for the lowercased `log_user` even though `LOG_USER` is in the
table). -/
theorem c5_exact_match_lookup_28_entries :
    syslog_name_to_rsyslog_name_map.length = 28
    ∧ (∀ s : String, s ∉ syslog_name_to_rsyslog_name_map.map Prod.fst →
        syslog_name_to_rsyslog_name s = .error ("Invalid syslog name given: " ++ s))
    ∧ syslog_name_to_rsyslog_name "LOG_USER" = .ok "user"
    ∧ syslog_name_to_rsyslog_name "log_user"
        = .error "Invalid syslog name given: log_user" := by
  refine ⟨rfl, ?_, rfl, rfl⟩
  intro s hs
  unfold syslog_name_to_rsyslog_name
  have hfind : syslog_name_to_rsyslog_name_map.find? (fun p => p.1 == s) = none := by
    rw [List.find?_eq_none]
    intro p hp hbeq
    exact hs (List.mem_map.mpr ⟨p, hp, (eq_of_beq hbeq)⟩)
  rw [hfind]

/-- C5 witness: the unknown-name error on a concrete name outside the table. -/
theorem c5_witness :
    syslog_name_to_rsyslog_name "LOG_BOGUS"
      = .error ("Invalid syslog name given: " ++ "LOG_BOGUS") :=
  c5_exact_match_lookup_28_entries.2.1 "LOG_BOGUS" (by decide)

/-! ## Claim C7 -/

/-- C7: for every syslog-event policy whose `syslogEventConfiguration` mapping
is absent or empty (so the constructor marks syslog collection disabled), the
rsyslog fragment generator, the syslog-ng fragment generator and the fluentd
syslog source generator all return the empty string (on a fresh instance). -/
theorem c7_disabled_generators_return_empty (se : Option SyslogEvents)
    (fl : Option (List FileLogEntry)) (reg : List SinkDef) (c : Config)
    (hc : mkLadLoggingConfig se fl reg = .ok c)
    (h : (facSevMapOf se).getD [] = []) :
    (get_oms_rsyslog_config c initCaches).1 = .ok ""
    ∧ (get_oms_syslog_ng_config c initCaches).1 = .ok ""
    ∧ get_oms_fluentd_syslog_src_config c = "" := by
  have hdis : c.syslog_disabled = true := by
    cases se with
    | none =>
      simp only [mkLadLoggingConfig, Except.ok.injEq] at hc
      rw [← hc]
    | some s =>
      cases hse : s.syslogEventConfiguration with
      | none => simp [mkLadLoggingConfig, hse] at hc
      | some m =>
        simp only [mkLadLoggingConfig, hse, Except.ok.injEq] at hc
        rw [← hc]
        simp only [facSevMapOf, hse, Option.getD_some] at h
        simp [h]
  refine ⟨?_, ?_, ?_⟩
  · unfold get_oms_rsyslog_config
    simp [initCaches, cacheFalsy, hdis]
  · unfold get_oms_syslog_ng_config
    simp [initCaches, cacheFalsy, hdis]
  · unfold get_oms_fluentd_syslog_src_config
    simp [hdis]

/-- C7 witness: the three empty outputs for the concrete absent policy. -/
theorem c7_witness :
    (get_oms_rsyslog_config ⟨none, none, [], none, true⟩ initCaches).1 = .ok ""
    ∧ (get_oms_syslog_ng_config ⟨none, none, [], none, true⟩ initCaches).1 = .ok ""
    ∧ get_oms_fluentd_syslog_src_config ⟨none, none, [], none, true⟩ = "" :=
  c7_disabled_generators_return_empty none none [] _ rfl rfl

/-! ## Shared lemmas for claims C2 and C6 -/

/-- One step of the mdsd syslog sink loop, as a rewriting equation. -/
theorem syslogSinksLoop_cons (reg : List SinkDef) (n : String) (rest : List String)
    (re ehs : String) :
    syslogSinksLoop reg (n :: rest) re ehs =
      if n == "LinuxSyslog" then .error reservedSinkNameMsg
      else
        match generate_routeevent_and_eh_url_for_extra_sink reg n with
        | .error e => .error e
        | .ok (r, u) => syslogSinksLoop reg rest (re ++ r) (ehs ++ u) := rfl

/-- Sinks that pass the reserved-name check and resolve successfully only
accumulate XML: the sink loop on `pre ++ rest` continues into `rest` with some
accumulated strings. -/
theorem syslogSinksLoop_skips_ok_prefix (reg : List SinkDef) :
    ∀ (pre : List String) (rest : List String) (re ehs : String),
      (∀ n ∈ pre, n ≠ "LinuxSyslog" ∧
        ∃ r, generate_routeevent_and_eh_url_for_extra_sink reg n = .ok r) →
      ∃ re' ehs', syslogSinksLoop reg (pre ++ rest) re ehs
        = syslogSinksLoop reg rest re' ehs' := by
  intro pre
  induction pre with
  | nil => exact fun rest re ehs _ => ⟨re, ehs, rfl⟩
  | cons n pre' ih =>
    intro rest re ehs h
    obtain ⟨hne, ⟨r1, r2⟩, hr⟩ := h n (List.mem_cons_self n pre')
    have hstep : syslogSinksLoop reg ((n :: pre') ++ rest) re ehs
        = syslogSinksLoop reg (pre' ++ rest) (re ++ r1) (ehs ++ r2) := by
      show syslogSinksLoop reg (n :: (pre' ++ rest)) re ehs = _
      rw [syslogSinksLoop_cons, if_neg (by simp [hne]), hr]
    rw [hstep]
    exact ih rest _ _ (fun m hm => h m (List.mem_cons_of_mem n hm))

/-- The shared sink-route sub-algorithm raises the malformed-sink-definition
error on every sink whose registry definition has type `EventHub` but no
`sasURL`. -/
theorem routeevent_eventhub_without_sasurl (reg : List SinkDef) (name : String)
    (sink : SinkDef) (hlook : get_sink_by_name reg name = some sink)
    (htype : sink.type = "EventHub") (hsas : sink.sasURL = none) :
    generate_routeevent_and_eh_url_for_extra_sink reg name =
      .error ("sasURL is not specified for EventHub sink_name=" ++ name) := by
  unfold generate_routeevent_and_eh_url_for_extra_sink
  rw [hlook]
  simp only [htype, hsas]
  rfl

/-! ## Claim C2 -/

/-- C2 counterexample: a file-log policy naming the sink `LinuxSyslog` does NOT
make the file-log event-pipeline generator raise the reserved-name error — with
`LinuxSyslog` defined as a `JsonBlob` sink in the registry, the generator
succeeds and returns an XML string (only the syslog generator performs the
reserved-name check). -/
theorem c2_counterexample_filelog_accepts_reserved_name :
    fileSinksValue [⟨"/var/log/a", some "MyTable", some "LinuxSyslog"⟩] "/var/log/a"
      = "LinuxSyslog"
    ∧ ((get_oms_mdsd_filelog_config cfgC2cx initCaches).1).isOk = true :=
  ⟨rfl, rfl⟩

/-- C2 (amended): only the syslog event-pipeline generator enforces the
reserved name: for every enabled syslog policy whose `sinks` list contains
`LinuxSyslog` (with every earlier sink passing the check and resolving
successfully), `get_oms_mdsd_syslog_config` raises the reserved-name error
before producing any XML, and the instance's cached result remains unset. The
file-log generator performs no such check (see the counterexample). -/
theorem c2_syslog_generator_raises_reserved_name (c : Config) (st : Caches)
    (s : String) (pre post : List String)
    (hdis : c.syslog_disabled = false)
    (hse : sinksField c = some s)
    (hsplit : splitOnChar ',' s = pre ++ "LinuxSyslog" :: post)
    (hpre : ∀ n ∈ pre, n ≠ "LinuxSyslog" ∧
      ∃ r, generate_routeevent_and_eh_url_for_extra_sink c.sinksConfig n = .ok r)
    (hcache : st.oms_mdsd_syslog_config = none) :
    get_oms_mdsd_syslog_config c st = (.error reservedSinkNameMsg, st) := by
  have hgen : generate_oms_mdsd_syslog_config c = .error reservedSinkNameMsg := by
    unfold generate_oms_mdsd_syslog_config
    rw [hse, hdis]
    obtain ⟨re', ehs', hloop⟩ := syslogSinksLoop_skips_ok_prefix c.sinksConfig pre
      ("LinuxSyslog" :: post) (mdsd_per_routeevent_config "LinuxSyslog" "") "" hpre
    have hhead : syslogSinksLoop c.sinksConfig ("LinuxSyslog" :: post) re' ehs'
        = .error reservedSinkNameMsg := by
      rw [syslogSinksLoop_cons, if_pos (by simp)]
    simp only [Bool.false_eq_true, if_false, hsplit, hloop, hhead]
    rfl
  unfold get_oms_mdsd_syslog_config
  rw [hcache]
  simp only [cacheFalsy, List.isEmpty_nil, if_pos rfl, hgen, if_true]

/-- C2 witness: the reserved-name error on the concrete enabled syslog policy
whose sinks list is exactly `LinuxSyslog`. -/
theorem c2_witness :
    get_oms_mdsd_syslog_config cfgC2w initCaches
      = (.error reservedSinkNameMsg, initCaches) :=
  c2_syslog_generator_raises_reserved_name cfgC2w initCaches "LinuxSyslog" [] []
    rfl rfl rfl (by simp) rfl

/-! ## Claim C6 -/

/-- C6: for every enabled syslog policy whose `sinks` list references a sink
(not named `LinuxSyslog`, with every earlier sink passing the reserved-name
check and resolving successfully) whose registry definition has type `EventHub`
but no `sasURL`, `get_oms_mdsd_syslog_config` raises the
malformed-sink-definition error and produces no partial output: no XML string
is returned and the instance's cached result remains exactly as before
(unset). -/
theorem c6_eventhub_without_sasurl_raises (c : Config) (st : Caches)
    (s name : String) (pre post : List String) (sink : SinkDef)
    (hdis : c.syslog_disabled = false)
    (hse : sinksField c = some s)
    (hsplit : splitOnChar ',' s = pre ++ name :: post)
    (hpre : ∀ n ∈ pre, n ≠ "LinuxSyslog" ∧
      ∃ r, generate_routeevent_and_eh_url_for_extra_sink c.sinksConfig n = .ok r)
    (hname : name ≠ "LinuxSyslog")
    (hlook : get_sink_by_name c.sinksConfig name = some sink)
    (htype : sink.type = "EventHub") (hsas : sink.sasURL = none)
    (hcache : st.oms_mdsd_syslog_config = none) :
    get_oms_mdsd_syslog_config c st
      = (.error ("sasURL is not specified for EventHub sink_name=" ++ name), st) := by
  have hgen : generate_oms_mdsd_syslog_config c
      = .error ("sasURL is not specified for EventHub sink_name=" ++ name) := by
    unfold generate_oms_mdsd_syslog_config
    rw [hse, hdis]
    obtain ⟨re', ehs', hloop⟩ := syslogSinksLoop_skips_ok_prefix c.sinksConfig pre
      (name :: post) (mdsd_per_routeevent_config "LinuxSyslog" "") "" hpre
    have hhead : syslogSinksLoop c.sinksConfig (name :: post) re' ehs'
        = .error ("sasURL is not specified for EventHub sink_name=" ++ name) := by
      rw [syslogSinksLoop_cons, if_neg (by simp [hname]),
        routeevent_eventhub_without_sasurl c.sinksConfig name sink hlook htype hsas]
    simp only [Bool.false_eq_true, if_false, hsplit, hloop, hhead]
    rfl
  unfold get_oms_mdsd_syslog_config
  rw [hcache]
  simp only [cacheFalsy, List.isEmpty_nil, if_pos rfl, hgen, if_true]

/-- C6 witness: the malformed-sink-definition error on the concrete policy
referencing the `sasURL`-less EventHub sink `EH1`. -/
theorem c6_witness :
    get_oms_mdsd_syslog_config cfgC6w initCaches
      = (.error ("sasURL is not specified for EventHub sink_name=" ++ "EH1"),
         initCaches) :=
  c6_eventhub_without_sasurl_raises cfgC6w initCaches "EH1" "EH1" [] []
    ⟨"EH1", "EventHub", none⟩ rfl rfl rfl (by simp) (by decide) rfl rfl rfl rfl

/-! ## Lemmas for claim C10 -/

/-- The file paths of the kept entries are exactly the deduplicated path list
(`List.dedup` also keeps the last occurrence of each duplicate). -/
theorem map_file_keepLast (l : List FileLogEntry) :
    (keepLast l).map (fun e => e.file) = (l.map (fun e => e.file)).dedup := by
  induction l with
  | nil => rfl
  | cons e rest ih =>
    by_cases h : e.file ∈ rest.map (fun x => x.file)
    · simp only [keepLast, if_pos h]
      rw [List.map_cons, List.dedup_cons_of_mem h]
      exact ih
    · simp only [keepLast, if_neg h]
      rw [List.map_cons, List.map_cons, List.dedup_cons_of_not_mem h, ih]

/-- Dropping the earlier duplicates does not change the LAST entry with any
given file path. -/
theorem filterLast_keepLast (k : String) : ∀ l : List FileLogEntry,
    ((keepLast l).filter (fun e => e.file == k)).getLast?
      = (l.filter (fun e => e.file == k)).getLast? := by
  intro l
  induction l with
  | nil => rfl
  | cons e rest ih =>
    by_cases hmem : e.file ∈ rest.map (fun x => x.file)
    · simp only [keepLast, if_pos hmem]
      rw [ih, List.filter_cons]
      by_cases hek : (e.file == k) = true
      · rw [if_pos hek]
        have hk : k = e.file := (eq_of_beq hek).symm
        obtain ⟨x, hx, hxf⟩ := List.mem_map.mp hmem
        have hxmem : x ∈ rest.filter (fun e => e.file == k) :=
          List.mem_filter.mpr ⟨hx, by rw [hxf, ← hk]; exact beq_self_eq_true k⟩
        cases hfr : rest.filter (fun e => e.file == k) with
        | nil => rw [hfr] at hxmem; cases hxmem
        | cons y ys => rw [List.getLast?_cons_cons]
      · rw [if_neg hek]
    · simp only [keepLast, if_neg hmem]
      rw [List.filter_cons, List.filter_cons]
      by_cases hek : (e.file == k) = true
      · rw [if_pos hek, if_pos hek]
        have hk : k = e.file := (eq_of_beq hek).symm
        have hfr : rest.filter (fun e => e.file == k) = [] := by
          rw [List.filter_eq_nil_iff]
          intro a ha hbeq
          have haf : a.file = e.file := (eq_of_beq hbeq).trans hk
          exact hmem (haf ▸ List.mem_map.mpr ⟨a, ha, rfl⟩)
        have hfkr : (keepLast rest).filter (fun e => e.file == k) = [] := by
          rw [List.filter_eq_nil_iff]
          intro a ha hbeq
          have hafm : a.file ∈ (keepLast rest).map (fun x => x.file) :=
            List.mem_map.mpr ⟨a, ha, rfl⟩
          rw [map_file_keepLast] at hafm
          have hafm' := List.mem_dedup.mp hafm
          have haf : a.file = e.file := (eq_of_beq hbeq).trans hk
          exact hmem (haf ▸ hafm')
        rw [hfr, hfkr]
      · rw [if_neg hek, if_neg hek]
        exact ih

/-- The per-file dict value (table or sinks, taken from the last entry with
that path) is unchanged when the earlier duplicates are dropped. -/
theorem fileValue_keepLast (f : FileLogEntry → String) (l : List FileLogEntry)
    (k : String) : fileValue f (keepLast l) k = fileValue f l k := by
  unfold fileValue
  rw [filterLast_keepLast]

/-- The watched-path key list is unchanged when earlier duplicates are dropped. -/
theorem fileKeys_keepLast (l : List FileLogEntry) :
    fileKeys (keepLast l) = fileKeys l := by
  unfold fileKeys
  rw [map_file_keepLast, List.dedup_idem]

/-- The sorted key list driving the mdsd filelog generator is unchanged when
earlier duplicates are dropped. -/
theorem sortedFileKeys_keepLast (l : List FileLogEntry) :
    sortedFileKeys (keepLast l) = sortedFileKeys l := by
  unfold sortedFileKeys
  rw [fileKeys_keepLast]

/-! ## Claim C10 -/

/-- C10: when the file-log policy contains two or more entries with the same
`file` path, the generators iterate that path exactly once (the sorted key
list contains it once), and both the mdsd filelog generator and the fluentd
filelog source generator produce the same output as for the policy with the
earlier duplicate entries removed (`keepLast`) — i.e. only the table and sinks
of the LAST entry with that path are used and earlier duplicates are silently
discarded. -/
theorem c10_duplicate_paths_last_wins (reg : List SinkDef) (l : List FileLogEntry)
    (p : String) (h : 2 ≤ (l.map (fun e => e.file)).count p) :
    (sortedFileKeys l).count p = 1
    ∧ get_oms_mdsd_filelog_config (cfgFL reg l) initCaches
      = get_oms_mdsd_filelog_config (cfgFL reg (keepLast l)) initCaches
    ∧ get_oms_fluentd_filelog_src_config (cfgFL reg l)
      = get_oms_fluentd_filelog_src_config (cfgFL reg (keepLast l)) := by
  have hmem : p ∈ l.map (fun e => e.file) := List.count_pos_iff.mp (by omega)
  have hmemd : p ∈ fileKeys l := List.mem_dedup.mpr hmem
  have hne : l.isEmpty = false := by
    cases l with
    | nil => simp at hmem
    | cons a as => rfl
  have hne2 : (keepLast l).isEmpty = false := by
    cases hkl : keepLast l with
    | nil =>
      have hfk : fileKeys (keepLast l) = fileKeys l := fileKeys_keepLast l
      rw [hkl] at hfk
      rw [← hfk] at hmemd
      simp [fileKeys] at hmemd
    | cons a as => rfl
  have htbl : fileTableValue (keepLast l) = fileTableValue l :=
    funext (fun k => fileValue_keepLast _ l k)
  have hsnk : fileSinksValue (keepLast l) = fileSinksValue l :=
    funext (fun k => fileValue_keepLast _ l k)
  refine ⟨?_, ?_, ?_⟩
  · rw [sortedFileKeys,
      ((List.perm_insertionSort (· ≤ ·) (fileKeys l)).count_eq p)]
    exact List.count_eq_one_of_mem (List.nodup_dedup _) hmemd
  · have hg : generate_oms_mdsd_filelog_config (cfgFL reg l)
        = generate_oms_mdsd_filelog_config (cfgFL reg (keepLast l)) := by
      unfold generate_oms_mdsd_filelog_config cfgFL
      dsimp only
      rw [hne, hne2, htbl, hsnk, sortedFileKeys_keepLast]
    unfold get_oms_mdsd_filelog_config
    rw [hg]
  · unfold get_oms_fluentd_filelog_src_config cfgFL
    dsimp only
    rw [hne, hne2, fileKeys_keepLast]

/-- C10 witness: the duplicate-path behavior on the concrete two-entry policy
for `/a`. -/
theorem c10_witness :
    (sortedFileKeys flC10).count "/a" = 1
    ∧ get_oms_mdsd_filelog_config (cfgFL [] flC10) initCaches
      = get_oms_mdsd_filelog_config (cfgFL [] (keepLast flC10)) initCaches
    ∧ get_oms_fluentd_filelog_src_config (cfgFL [] flC10)
      = get_oms_fluentd_filelog_src_config (cfgFL [] (keepLast flC10)) :=
  c10_duplicate_paths_last_wins [] flC10 "/a" (by decide)
